import Mathlib

/-!
Shallow embedding of the table-driven ETL orchestration core of this
repository (src/complex_pipeline.py and src/etl_pipeline.py), together
with theorems checking the natural-language specification against it.

Rows of a tabular dataset are association lists from column names to
optional integer values (a missing value models a SQL NULL, and dates
are encoded as integers in YYYYMMDD form, which is order-preserving).
Functions that the source calls but that are not defined anywhere under
the repository are modelled from the specification and say so in their
doc comment.
-/

namespace ETL

/-- A cell value in a tabular dataset; `none` models a SQL NULL. -/
abbrev Value := Option Int

/-- A row of a dataset: an association list from column name to value. -/
abbrev Row := List (String × Value)

/-- Reading a column of a row; an absent column reads as NULL. -/
def Row.get (r : Row) (c : String) : Value :=
  match List.lookup c r with
  | some v => v
  | none => none

/-- Configuration for table processing, from the `TableConfig` dataclass
in src/complex_pipeline.py (lines 22-29). -/
structure TableConfig where
  name : String
  pk_columns : List String
  partition_columns : Option (List String)
  incremental_column : Option String
  batch_size : Nat
deriving Repr, DecidableEq

/-- The validation-results dictionary built by `validate_source_data` in
src/complex_pipeline.py (lines 70-75). -/
structure ValidationResult where
  total_rows : Nat
  missing_pk : Bool
  data_types_match : Bool
  null_check_passed : Bool
deriving Repr, DecidableEq

/-- The metrics dictionary of `process_data_batch` in
src/complex_pipeline.py (line 114). -/
structure BatchMetrics where
  processed : Nat
  errors : Nat
deriving Repr, DecidableEq

/-- Embedding of the successful-read path of `validate_source_data`
(src/complex_pipeline.py lines 51-95): take a sample of at most 1000 rows,
report the total row count of the full table, set `missing_pk` when some
declared primary-key column holds a null in the sample, and leave
`data_types_match` and `null_check_passed` at their initial value `true`
(no code path ever updates them). -/
def validate_source_data (table : List Row) (cfg : TableConfig) : ValidationResult :=
  let df_sample := table.take 1000
  { total_rows := table.length
    missing_pk := cfg.pk_columns.any (fun pk => df_sample.any (fun r => (Row.get r pk).isNone))
    data_types_match := true
    null_check_passed := true }

/-- The `validate_source_data` task including its failure path: when the
source reference cannot be read at all (modelled by `none`) the task
raises `Failed` (src/complex_pipeline.py lines 97-99). -/
def validate_source_data_task (source : Option (List Row)) (cfg : TableConfig) :
    Except String ValidationResult :=
  match source with
  | none => Except.error ("Validation failed for " ++ cfg.name)
  | some t => Except.ok (validate_source_data t cfg)

/-- Embedding of `data_quality_flow` (src/complex_pipeline.py lines
144-168): it emits a data-quality report artifact exactly when
`null_check_passed` is false, and does nothing else observable. -/
def data_quality_flow (cfg : TableConfig) (v : ValidationResult) : List String :=
  if v.null_check_passed then [] else ["dq-report-" ++ cfg.name]

/-- Observable actions of the per-table portion of `main_flow`. -/
inductive Action where
  | validated (table : String)
  | dqReport (key : String)
  | incrementalLoad (table : String)
  | fullLoad (table : String)
deriving Repr, DecidableEq

/-- The body of the per-table loop of `main_flow` (src/complex_pipeline.py
lines 219-245) for a readable source: validate, run the data-quality
subflow, and, when `null_check_passed` holds, run the incremental load
flow when `incremental_column` is set and the chunked full load
otherwise; when `null_check_passed` is false no load step runs. -/
def main_flow_table (cfg : TableConfig) (source : List Row) : List Action :=
  let v := validate_source_data source cfg
  (Action.validated cfg.name :: (data_quality_flow cfg v).map Action.dqReport) ++
    (if v.null_check_passed then
      (if cfg.incremental_column.isSome then [Action.incrementalLoad cfg.name]
       else [Action.fullLoad cfg.name])
     else [])

/-- Embedding of the top-level loop of `main_flow` (src/complex_pipeline.py
lines 219-245): tables are processed sequentially and an exception raised
while processing one table (here: an unreadable source, the failure path
of `validate_source_data`) propagates out of the flow, so later table
configurations are not processed and no result is produced. -/
def main_flow : List (TableConfig × Option (List Row)) → Except String (List Action)
  | [] => Except.ok []
  | (cfg, source) :: rest =>
    match source with
    | none => Except.error ("Validation failed for " ++ cfg.name)
    | some t =>
      match main_flow rest with
      | Except.error e => Except.error e
      | Except.ok acts => Except.ok (main_flow_table cfg t ++ acts)

/-- The `products` table configuration from the main block of
src/complex_pipeline.py (lines 249-253). -/
def cfg_products : TableConfig :=
  { name := "products"
    pk_columns := ["product_id"]
    partition_columns := some ["category"]
    incremental_column := none
    batch_size := 50000 }

/-- The `customers` table configuration from the main block of
src/complex_pipeline.py (lines 254-258). -/
def cfg_customers : TableConfig :=
  { name := "customers"
    pk_columns := ["customer_id"]
    partition_columns := none
    incremental_column := some "updated_at"
    batch_size := 50000 }

/-- A one-row products dataset whose primary-key column holds a NULL. -/
def dsNullPk : List Row := [[("product_id", (none : Value))]]

/-- A well-formed one-row customers dataset. -/
def dsCustomersOk : List Row :=
  [[("customer_id", (some 7 : Value)), ("updated_at", (some 20240105 : Value))]]

/-- Embedding of `process_data_batch` (src/complex_pipeline.py lines
101-139). The helpers `transform_batch` and `upsert_to_snowflake` are
called there but defined nowhere in the repository, so they are
parameters: `transform` is the in-flight transformation and `upsert_ok`
tells whether the upsert of a given transformed chunk succeeds. On
success the metrics carry `processed` equal to the transformed chunk
size and `errors` zero; on failure the task sets `errors` to the chunk
size and raises `Failed`, which is the error value here. -/
def process_data_batch (transform : List Row → List Row) (upsert_ok : List Row → Bool)
    (batch_df : List Row) : Except BatchMetrics BatchMetrics :=
  let b := transform batch_df
  if upsert_ok b then Except.ok { processed := b.length, errors := 0 }
  else Except.error { processed := 0, errors := b.length }

/-- Embedding of the full-load loop of `main_flow`
(src/complex_pipeline.py lines 244-245): chunks are processed in order by
`process_data_batch`, and the exception raised by a failing chunk
propagates at once, so the loop stops there. The first component records
the chunks actually attempted; the second is the list of per-chunk
metrics on success, or the metrics of the failing call on failure. -/
def full_load_loop (transform : List Row → List Row) (upsert_ok : List Row → Bool) :
    List (List Row) → List (List Row) × Except BatchMetrics (List BatchMetrics)
  | [] => ([], Except.ok [])
  | batch :: batches =>
    match process_data_batch transform upsert_ok batch with
    | Except.error m => ([batch], Except.error m)
    | Except.ok m =>
      let rest := full_load_loop transform upsert_ok batches
      (batch :: rest.1,
       match rest.2 with
       | Except.error e => Except.error e
       | Except.ok ms => Except.ok (m :: ms))

/-- The watermark store: a map from (table name, column name) to the last
processed incremental value. -/
abbrev WatermarkStore := List ((String × String) × Int)

/-- Reading a watermark from the store. -/
def watermark_get (store : WatermarkStore) (table col : String) : Option Int :=
  List.lookup (table, col) store

/-- Writing a watermark to the store. -/
def watermark_set (store : WatermarkStore) (table col : String) (v : Int) : WatermarkStore :=
  ((table, col), v) :: store

/-- Modelled from the spec: the sentinel beginning-of-time watermark used
on a first run, when no watermark exists yet (spec 4.2; the spec design
notes record that no concrete value appears in the source, so zero is
chosen here; none of the theorems below depend on the choice). -/
def beginning_of_time : Int := 0

/-- Modelled from the spec: `get_last_processed_value` is called in
src/complex_pipeline.py (line 185) but defined nowhere in the repository.
Per spec 4.2 it reads the current watermark for the table and its
incremental column, defaulting to the beginning-of-time sentinel. -/
def get_last_processed_value (store : WatermarkStore) (cfg : TableConfig) (col : String) : Int :=
  match watermark_get store cfg.name col with
  | some v => v
  | none => beginning_of_time

/-- Modelled from the spec: `load_incremental_data` is called in
src/complex_pipeline.py (line 190) but defined nowhere in the repository.
Per spec 4.2 and the glossary, it keeps exactly the source rows whose
incremental-column value strictly exceeds the watermark, in source
order. -/
def load_incremental_data (source : List Row) (col : String) (watermark : Int) : List Row :=
  source.filter (fun r =>
    match Row.get r col with
    | some v => decide (watermark < v)
    | none => false)

/-- Effects performed by the incremental load flow, in order. -/
inductive IncEffect where
  | readWatermark (table col : String)
  | readSource (table : String)
  | loadBatch (rows : Nat)
deriving Repr, DecidableEq

/-- Embedding of `incremental_load_flow` (src/complex_pipeline.py lines
170-197): when `incremental_column` is unset it raises at once, before
reading the watermark or any source data, so the error carries an empty
effect trace. Otherwise it reads the watermark, filters the source, and
when the extracted data is nonempty processes it as a single batch with
`process_data_batch`; an empty extraction is a no-op, not a failure. The
flow itself never writes the watermark. -/
def incremental_load_flow (cfg : TableConfig) (store : WatermarkStore) (source : List Row)
    (transform : List Row → List Row) (upsert_ok : List Row → Bool) :
    Except (String × List IncEffect) (List IncEffect × Option BatchMetrics) :=
  match cfg.incremental_column with
  | none => Except.error ("Incremental column not configured", [])
  | some col =>
    let last_processed := get_last_processed_value store cfg col
    let new_data := load_incremental_data source col last_processed
    let reads := [IncEffect.readWatermark cfg.name col, IncEffect.readSource cfg.name]
    if new_data.isEmpty then Except.ok (reads, none)
    else
      match process_data_batch transform upsert_ok new_data with
      | Except.error _ => Except.error ("Batch processing failed", reads)
      | Except.ok m => Except.ok (reads ++ [IncEffect.loadBatch new_data.length], some m)

/-- The values found in a given column of a list of rows. -/
def row_values (rows : List Row) (col : String) : List Int :=
  rows.filterMap (fun r => Row.get r col)

/-- Modelled from the spec: the highest incremental-column value
successfully processed (spec glossary), used as the advanced watermark;
when no value was processed the given default stands. -/
def highest_processed (rows : List Row) (col : String) (default : Int) : Int :=
  match row_values rows col with
  | [] => default
  | v :: vs => vs.foldl max v

/-- Modelled from the spec: one complete incremental run. Watermark
advancement is the responsibility of the caller of the incremental flow
and happens only after the extracted batch is durably loaded (spec 4.2);
no such caller exists under the repository, so this composition repeats
the steps of `incremental_load_flow` and then, exactly when a batch was
successfully loaded, stores the highest processed incremental value as
the new watermark. -/
def incremental_run (cfg : TableConfig) (store : WatermarkStore) (source : List Row)
    (transform : List Row → List Row) (upsert_ok : List Row → Bool) :
    Except String (Option BatchMetrics × WatermarkStore) :=
  match cfg.incremental_column with
  | none => Except.error "Incremental column not configured"
  | some col =>
    let last_processed := get_last_processed_value store cfg col
    let new_data := load_incremental_data source col last_processed
    if new_data.isEmpty then Except.ok (none, store)
    else
      match process_data_batch transform upsert_ok new_data with
      | Except.error _ => Except.error "Batch processing failed"
      | Except.ok m =>
        Except.ok (some m,
          watermark_set store cfg.name col (highest_processed new_data col last_processed))

/-- The retry and caching declaration a task decorator attaches to a step:
the retries count, the backoff factor of `exponential_backoff` when one
is declared, and whether `cache_key_fn = task_input_hash` is declared. -/
structure TaskPolicy where
  retries : Nat
  backoff_factor : Option Nat
  cached : Bool
deriving Repr, DecidableEq

/-- Decorator of `validate_source_data` (src/complex_pipeline.py lines
47-50): retries 3, exponential backoff with factor 30, input-hash
caching. -/
def validate_source_data_policy : TaskPolicy :=
  { retries := 3, backoff_factor := some 30, cached := true }

/-- Decorator of `process_data_batch` (src/complex_pipeline.py line 101):
retries 3 only. -/
def process_data_batch_policy : TaskPolicy :=
  { retries := 3, backoff_factor := none, cached := false }

/-- Decorator of `create_raw_tables` (src/etl_pipeline.py line 149):
retries 3 and input-hash caching. -/
def create_raw_tables_policy : TaskPolicy :=
  { retries := 3, backoff_factor := none, cached := true }

/-- Decorator of `create_dimension_tables` (src/etl_pipeline.py line
156): retries 3 and input-hash caching. -/
def create_dimension_tables_policy : TaskPolicy :=
  { retries := 3, backoff_factor := none, cached := true }

/-- Decorator of `load_raw_data` (src/etl_pipeline.py line 163): retries
3 only. -/
def load_raw_data_policy : TaskPolicy :=
  { retries := 3, backoff_factor := none, cached := false }

/-- Decorator of `load_dimension_table` (src/etl_pipeline.py line 182):
retries 3 only. -/
def load_dimension_table_policy : TaskPolicy :=
  { retries := 3, backoff_factor := none, cached := false }

/-- Decorator of `load_fact_sales` (src/etl_pipeline.py line 194):
retries 3 only. -/
def load_fact_sales_policy : TaskPolicy :=
  { retries := 3, backoff_factor := none, cached := false }

/-- Every retried pipeline step of the source, with its declared
policy. -/
def pipeline_step_policies : List (String × TaskPolicy) :=
  [("validate_source_data", validate_source_data_policy),
   ("process_data_batch", process_data_batch_policy),
   ("create_raw_tables", create_raw_tables_policy),
   ("create_dimension_tables", create_dimension_tables_policy),
   ("load_raw_data", load_raw_data_policy),
   ("load_dimension_table", load_dimension_table_policy),
   ("load_fact_sales", load_fact_sales_policy)]

/-- The delay before retry attempt k (1-based) under a policy: a step
declared with `exponential_backoff(backoff_factor = f)` waits
f * 2 ^ (k - 1); a step with no backoff declaration has no exponential
delay. -/
def retry_delay (p : TaskPolicy) (attempt : Nat) : Nat :=
  match p.backoff_factor with
  | some factor => factor * 2 ^ (attempt - 1)
  | none => 0

/-- The fingerprint cache: results keyed by the input hash. -/
abbrev FingerprintCache (β : Type) := List (Nat × β)

/-- One task invocation under the framework cache semantics: a task
declared with `cache_key_fn = task_input_hash` consults the cache under
the hash of its resolved inputs and is skipped on a hit; any other task
always executes the underlying work. Returns the result, the updated
cache, and whether the underlying work executed. -/
def run_task {β : Type} (p : TaskPolicy) (work : Nat → β) (cache : FingerprintCache β)
    (input : Nat) : β × FingerprintCache β × Bool :=
  if p.cached then
    match List.lookup input cache with
    | some v => (v, cache, false)
    | none => (work input, (input, work input) :: cache, true)
  else (work input, cache, true)

/-- Two consecutive invocations of one step with identical resolved
inputs, starting from an empty cache: the pair of results and the number
of times the underlying work executed. -/
def run_twice {β : Type} (p : TaskPolicy) (work : Nat → β) (input : Nat) :
    (β × β) × Nat :=
  let first := run_task p work [] input
  let second := run_task p work first.2.1 input
  ((first.1, second.1),
   (if first.2.2 then 1 else 0) + (if second.2.2 then 1 else 0))

/-- The warehouse-writing tasks of the dimensional model build in
src/etl_pipeline.py. -/
inductive WhTask where
  | create_dimension_tables
  | dim_load (name : String)
  | fact_load
deriving Repr, DecidableEq

/-- Instructions a flow body can issue: calling a task synchronously,
submitting it to the task runner without blocking, or waiting on a
previously submitted future. -/
inductive Instr where
  | call (t : WhTask)
  | submit (t : WhTask)
  | wait (t : WhTask)
deriving Repr, DecidableEq

/-- The dimension transforms of `load_dimensional_model_flow`
(src/etl_pipeline.py lines 245-281), in dictionary insertion order. -/
def dim_transforms : List String := ["DIM_PRODUCTS", "DIM_LOCATIONS", "DIM_CUSTOMERS"]

/-- The body of `load_dimensional_model_flow` (src/etl_pipeline.py lines
239-288): create the dimension and fact tables, submit each dimension
load to the task runner, then call `load_fact_sales` directly. No wait
instruction on the submitted dimension futures appears anywhere in the
body. -/
def load_dimensional_model_flow : List Instr :=
  Instr.call WhTask.create_dimension_tables ::
    (dim_transforms.map (fun d => Instr.submit (WhTask.dim_load d)) ++
      [Instr.call WhTask.fact_load])

/-- Events observable in the flow thread while the body runs. -/
inductive FlowEvent where
  | started (t : WhTask)
  | submitted (t : WhTask)
  | awaited (t : WhTask)
deriving Repr, DecidableEq

/-- Sequential semantics of a flow body against an environment giving
each task its outcome: a called task starts here and its failure (after
its own retries) raises, ending the body; a submitted task is scheduled
on the task runner and its outcome is not observed by the flow thread
unless a wait instruction blocks on it; a wait on a failed future
raises. Returns the flow-thread events in order and whether the body ran
to completion without raising. -/
def run_flow_body (outcome : WhTask → Bool) : List Instr → List FlowEvent × Bool
  | [] => ([], true)
  | Instr.call t :: rest =>
    if outcome t then
      let r := run_flow_body outcome rest
      (FlowEvent.started t :: r.1, r.2)
    else ([FlowEvent.started t], false)
  | Instr.submit t :: rest =>
    let r := run_flow_body outcome rest
    (FlowEvent.submitted t :: r.1, r.2)
  | Instr.wait t :: rest =>
    if outcome t then
      let r := run_flow_body outcome rest
      (FlowEvent.awaited t :: r.1, r.2)
    else ([FlowEvent.awaited t], false)

/-- An environment in which the DIM_CUSTOMERS dimension load fails and
every other task succeeds. -/
def dim_customers_fails : WhTask → Bool :=
  fun t => if t = WhTask.dim_load "DIM_CUSTOMERS" then false else true

/-- Modelled from the spec: `get_data_iterator` is called on the
full-load path of `main_flow` (src/complex_pipeline.py lines 238-242)
but defined nowhere in the repository. Per spec 4.3 it partitions the
dataset into consecutive chunks of at most `batch_size` rows, preserving
row order within and across chunks. -/
def get_data_iterator (batch_size : Nat) : List Row → List (List Row)
  | [] => []
  | x :: xs =>
    (x :: xs.take (batch_size - 1)) :: get_data_iterator batch_size (xs.drop (batch_size - 1))
termination_by l => l.length
decreasing_by simp; omega

/-- Whether a flow run produced a result rather than raising. -/
def flow_completed {ε α : Type} : Except ε α → Bool
  | Except.ok _ => true
  | Except.error _ => false

/-- The sales table configuration of the concrete incremental scenario
of the spec (section 8). -/
def cfg_sales : TableConfig :=
  { name := "sales"
    pk_columns := ["sale_id"]
    partition_columns := none
    incremental_column := some "created_at"
    batch_size := 2 }

/-- Incoming sales row dated 2024-01-02. -/
def row_0102 : Row := [("sale_id", (some 1 : Value)), ("created_at", (some 20240102 : Value))]

/-- Incoming sales row dated 2024-01-03. -/
def row_0103 : Row := [("sale_id", (some 2 : Value)), ("created_at", (some 20240103 : Value))]

/-- Incoming sales row dated 2023-12-31. -/
def row_1231 : Row := [("sale_id", (some 3 : Value)), ("created_at", (some 20231231 : Value))]

/-- The three incoming sales rows of the concrete scenario, in arrival
order. -/
def sales_source : List Row := [row_0102, row_0103, row_1231]

/-- A watermark store holding 2024-01-01 for the sales table. -/
def sales_store : WatermarkStore := [(("sales", "created_at"), 20240101)]

/-- A one-row sales chunk used as a concrete batch. -/
def sale_row_1 : Row := [("sale_id", (some 1 : Value))]

/-- A second one-row sales chunk used as a concrete batch. -/
def sale_row_2 : Row := [("sale_id", (some 2 : Value))]

/-- A load action of the orchestrator, incremental or full. -/
def is_load_action : Action → Bool
  | Action.incrementalLoad _ => true
  | Action.fullLoad _ => true
  | _ => false

/-- A wait instruction of a flow body. -/
def is_wait_instr : Instr → Bool
  | Instr.wait _ => true
  | _ => false

theorem le_foldl_max (vs : List Int) : ∀ a : Int, a ≤ vs.foldl max a := by
  induction vs with
  | nil => intro a; exact le_refl a
  | cons v vs ih => intro a; exact le_trans (le_max_left a v) (ih (max a v))

theorem values_gt (source : List Row) (col : String) (w : Int) :
    ∀ x ∈ row_values (load_incremental_data source col w) col, w < x := by
  intro x hx
  unfold row_values at hx
  rw [List.mem_filterMap] at hx
  obtain ⟨r, hr, hget⟩ := hx
  unfold load_incremental_data at hr
  rw [List.mem_filter] at hr
  obtain ⟨-, hp⟩ := hr
  rw [hget] at hp
  simpa using hp

theorem le_highest_processed (nd : List Row) (col : String) (w : Int)
    (hall : ∀ x ∈ row_values nd col, w < x) : w ≤ highest_processed nd col w := by
  unfold highest_processed
  cases hv : row_values nd col with
  | nil => exact le_refl w
  | cons v vs =>
    have hvmem : v ∈ row_values nd col := by rw [hv]; exact List.mem_cons_self v vs
    exact le_trans (le_of_lt (hall v hvmem)) (le_foldl_max vs v)

theorem glpv_set (store : WatermarkStore) (cfg : TableConfig) (col : String) (v : Int) :
    get_last_processed_value (watermark_set store cfg.name col v) cfg col = v := by
  unfold get_last_processed_value watermark_get watermark_set
  simp [List.lookup]

theorem ceil_div_step (b : Nat) (hb : 0 < b) (m : Nat) :
    (m - (b - 1) + b - 1) / b + 1 = (m + 1 + b - 1) / b := by
  have e3 : m + 1 + b - 1 = m + b := by omega
  rw [e3, Nat.add_div_right _ hb]
  rcases Nat.lt_or_ge m b with hmb | hmb
  · have e1 : m - (b - 1) + b - 1 = b - 1 := by omega
    rw [e1, Nat.div_eq_of_lt (by omega), Nat.div_eq_of_lt hmb]
  · have e1 : m - (b - 1) + b - 1 = m := by omega
    rw [e1]

theorem gdi_flatten_aux (b : Nat) :
    ∀ (n : Nat) (l : List Row), l.length ≤ n → (get_data_iterator b l).flatten = l := by
  intro n
  induction n with
  | zero =>
    intro l h
    have hl : l = [] := List.length_eq_zero.mp (Nat.le_zero.mp h)
    subst hl
    simp [get_data_iterator]
  | succ n ih =>
    intro l h
    cases l with
    | nil => simp [get_data_iterator]
    | cons x xs =>
      simp only [get_data_iterator, List.flatten_cons]
      rw [ih (xs.drop (b - 1)) (by simp only [List.length_drop]; simp at h; omega)]
      rw [List.cons_append, List.take_append_drop]

theorem gdi_flatten (b : Nat) (l : List Row) : (get_data_iterator b l).flatten = l :=
  gdi_flatten_aux b l.length l (le_refl _)

theorem gdi_sizes_aux (b : Nat) (hb : 0 < b) :
    ∀ (n : Nat) (l : List Row), l.length ≤ n →
      ∀ c ∈ get_data_iterator b l, c.length ≤ b := by
  intro n
  induction n with
  | zero =>
    intro l h c hc
    have hl : l = [] := List.length_eq_zero.mp (Nat.le_zero.mp h)
    subst hl
    simp [get_data_iterator] at hc
  | succ n ih =>
    intro l h c hc
    cases l with
    | nil => simp [get_data_iterator] at hc
    | cons x xs =>
      simp only [get_data_iterator] at hc
      rcases List.mem_cons.mp hc with rfl | hc2
      · simp only [List.length_cons, List.length_take]
        omega
      · exact ih (xs.drop (b - 1)) (by simp only [List.length_drop]; simp at h; omega) c hc2

theorem gdi_sizes (b : Nat) (hb : 0 < b) (l : List Row) :
    ∀ c ∈ get_data_iterator b l, c.length ≤ b :=
  gdi_sizes_aux b hb l.length l (le_refl _)

theorem gdi_length_aux (b : Nat) (hb : 0 < b) :
    ∀ (n : Nat) (l : List Row), l.length ≤ n →
      (get_data_iterator b l).length = (l.length + b - 1) / b := by
  intro n
  induction n with
  | zero =>
    intro l h
    have hl : l = [] := List.length_eq_zero.mp (Nat.le_zero.mp h)
    subst hl
    simp only [get_data_iterator, List.length_nil, Nat.zero_add]
    exact (Nat.div_eq_of_lt (by omega)).symm
  | succ n ih =>
    intro l h
    cases l with
    | nil =>
      simp only [get_data_iterator, List.length_nil, Nat.zero_add]
      exact (Nat.div_eq_of_lt (by omega)).symm
    | cons x xs =>
      simp only [get_data_iterator, List.length_cons]
      rw [ih (xs.drop (b - 1)) (by simp only [List.length_drop]; simp at h; omega)]
      simp only [List.length_drop]
      exact ceil_div_step b hb xs.length

theorem gdi_length (b : Nat) (hb : 0 < b) (l : List Row) :
    (get_data_iterator b l).length = (l.length + b - 1) / b :=
  gdi_length_aux b hb l.length l (le_refl _)

/-- C1: the claim says the fact-table load starts only after every
dimension load of the run has reached a terminal state, and that a failed
dimension prevents it and surfaces a DependencyError. The code violates
this: the body of load_dimensional_model_flow contains no wait on the
submitted dimension futures, and in an environment where the
DIM_CUSTOMERS dimension load fails, the fact load still starts and the
flow body runs to completion without raising anything, DependencyError
included (no such error exists anywhere in the repository). -/
theorem C1_fact_load_not_blocked_by_failed_dimension :
    load_dimensional_model_flow.all (fun i => !(is_wait_instr i)) = true ∧
    dim_customers_fails (WhTask.dim_load "DIM_CUSTOMERS") = false ∧
    FlowEvent.started WhTask.fact_load ∈
      (run_flow_body dim_customers_fails load_dimensional_model_flow).1 ∧
    (run_flow_body dim_customers_fails load_dimensional_model_flow).2 = true := by
  decide

/-- C2: the claim says a validation sample with a null primary-key value
makes the table QualityFlagged and prevents every load step. The code
violates this: on a products dataset whose primary-key column holds a
null, validation sets missing_pk but leaves null_check_passed true, so
the data-quality flow emits nothing and the orchestrator still invokes
the full load for the table. -/
theorem C2_null_pk_not_flagged_and_still_loaded :
    (validate_source_data dsNullPk cfg_products).missing_pk = true ∧
    (validate_source_data dsNullPk cfg_products).null_check_passed = true ∧
    data_quality_flow cfg_products (validate_source_data dsNullPk cfg_products) = [] ∧
    Action.fullLoad "products" ∈ main_flow_table cfg_products dsNullPk := by
  decide

/-- C3: for every table configuration with incremental_column unset, the
incremental load flow fails at once with the configuration error; the
error carries an empty effect trace, so no watermark and no source data
were read, and no load of any kind ran. -/
theorem C3_incremental_without_column_fails_first (cfg : TableConfig)
    (store : WatermarkStore) (source : List Row) (transform : List Row → List Row)
    (upsert_ok : List Row → Bool) (h : cfg.incremental_column = none) :
    incremental_load_flow cfg store source transform upsert_ok =
      Except.error ("Incremental column not configured", ([] : List IncEffect)) := by
  unfold incremental_load_flow
  rw [h]

/-- Witness for C3 at the products configuration, whose
incremental_column is unset. -/
theorem C3_witness :
    cfg_products.incremental_column = none ∧
    incremental_load_flow cfg_products [] dsNullPk id (fun _ => true) =
      Except.error ("Incremental column not configured", ([] : List IncEffect)) :=
  ⟨rfl, C3_incremental_without_column_fails_first cfg_products [] dsNullPk id (fun _ => true) rfl⟩

/-- C4: for every dataset and every positive batch size b, the chunker
produces ceiling(n / b) chunks, written (n + b - 1) / b, each of at most
b rows, whose in-order concatenation is the dataset itself, so no row is
lost, duplicated or reordered. -/
theorem C4_chunking_partitions_exactly (b : Nat) (hb : 0 < b) (D : List Row) :
    (get_data_iterator b D).length = (D.length + b - 1) / b ∧
    (∀ c ∈ get_data_iterator b D, c.length ≤ b) ∧
    (get_data_iterator b D).flatten = D :=
  ⟨gdi_length b hb D, gdi_sizes b hb D, gdi_flatten b D⟩

/-- Witness for C4 at batch size 2 on a five-row dataset. -/
theorem C4_witness :
    0 < 2 ∧
    ((get_data_iterator 2 sales_source).length = (sales_source.length + 2 - 1) / 2 ∧
      (∀ c ∈ get_data_iterator 2 sales_source, c.length ≤ 2) ∧
      (get_data_iterator 2 sales_source).flatten = sales_source) :=
  ⟨by decide, C4_chunking_partitions_exactly 2 (by decide) sales_source⟩

/-- C10: for every source that validation reads, the returned result has
data_types_match and null_check_passed true whatever the data holds;
hence the data-quality flow, which branches on null_check_passed, never
emits a report, and the orchestrator gate always proceeds to a load step
for the table. -/
theorem C10_quality_gate_never_blocks (source : List Row) (cfg : TableConfig) :
    (validate_source_data source cfg).data_types_match = true ∧
    (validate_source_data source cfg).null_check_passed = true ∧
    data_quality_flow cfg (validate_source_data source cfg) = [] ∧
    (main_flow_table cfg source).any is_load_action = true := by
  refine ⟨rfl, rfl, rfl, ?_⟩
  unfold main_flow_table validate_source_data data_quality_flow
  cases h : cfg.incremental_column <;> simp [h, is_load_action]

/-- C5: the concrete incremental scenario for the sales table with a
stored watermark of 2024-01-01 and rows dated 2024-01-02, 2024-01-03 and
2023-12-31: extraction keeps exactly the first two rows in order, they
form one batch of size 2 within the configured batch size, the run
succeeds with metrics processed 2 and errors 0, and the stored watermark
afterwards is 2024-01-03; and, in general, after every successful
incremental run the stored watermark is at least the watermark read at
the start of that run. -/
theorem C5_sales_scenario_and_watermark_monotonic :
    (load_incremental_data sales_source "created_at" 20240101 = [row_0102, row_0103]) ∧
    ((load_incremental_data sales_source "created_at" 20240101).length = 2 ∧
      cfg_sales.batch_size = 2) ∧
    (incremental_run cfg_sales sales_store sales_source id (fun _ => true) =
      Except.ok (some { processed := 2, errors := 0 },
        watermark_set sales_store "sales" "created_at" 20240103)) ∧
    (watermark_get (watermark_set sales_store "sales" "created_at" 20240103)
      "sales" "created_at" = some 20240103) ∧
    (∀ (cfg : TableConfig) (store : WatermarkStore) (source : List Row)
        (transform : List Row → List Row) (upsert_ok : List Row → Bool)
        (col : String) (m : Option BatchMetrics) (store2 : WatermarkStore),
      cfg.incremental_column = some col →
      incremental_run cfg store source transform upsert_ok = Except.ok (m, store2) →
      get_last_processed_value store cfg col ≤ get_last_processed_value store2 cfg col) := by
  refine ⟨by decide, by decide, rfl, rfl, ?_⟩
  intro cfg store source transform upsert_ok col m store2 hcol hrun
  unfold incremental_run at hrun
  rw [hcol] at hrun
  dsimp only at hrun
  split at hrun
  · simp only [Except.ok.injEq, Prod.mk.injEq] at hrun
    rw [← hrun.2]
  · split at hrun
    · simp at hrun
    · simp only [Except.ok.injEq, Prod.mk.injEq] at hrun
      rw [← hrun.2, glpv_set]
      exact le_highest_processed _ col _ (values_gt source col _)

/-- Witness for the general watermark-monotonicity part of C5, at the
concrete sales scenario. -/
theorem C5_witness :
    get_last_processed_value sales_store cfg_sales "created_at" ≤
      get_last_processed_value (watermark_set sales_store "sales" "created_at" 20240103)
        cfg_sales "created_at" :=
  C5_sales_scenario_and_watermark_monotonic.2.2.2.2 cfg_sales sales_store sales_source id
    (fun _ => true) "created_at" (some { processed := 2, errors := 0 })
    (watermark_set sales_store "sales" "created_at" 20240103) rfl rfl

/-- C6 counterexample: with two one-row chunks both of whose upserts
fail, the loop aborts on the first chunk with per-chunk metrics (errors
1, not the cumulative 2), and the second chunk is never attempted even
though the warehouse connection stays usable; no summary over all chunks
is ever produced, refuting the claim that remaining chunks are attempted
and a cumulative LoadError is surfaced at the end. -/
theorem C6_counterexample_abort_on_first_failing_chunk :
    full_load_loop id (fun _ => false) [[sale_row_1], [sale_row_2]] =
      ([[sale_row_1]], Except.error { processed := 0, errors := 1 }) ∧
    [sale_row_2] ∉ (full_load_loop id (fun _ => false) [[sale_row_1], [sale_row_2]]).1 :=
  ⟨rfl, by decide⟩

/-- C6 amended: on the first failing chunk the loader records that
transformed chunk row count in the errors field and raises at once, so
exactly the chunks up to and including the failing one are attempted,
later chunks are not, and the surfaced metrics are those of the failing
call alone rather than a cumulative summary. -/
theorem C6_failing_chunk_aborts_loop (transform : List Row → List Row)
    (upsert_ok : List Row → Bool) (pre : List (List Row)) (c : List Row)
    (post : List (List Row))
    (hpre : ∀ x ∈ pre, upsert_ok (transform x) = true)
    (hc : upsert_ok (transform c) = false) :
    full_load_loop transform upsert_ok (pre ++ c :: post) =
      (pre ++ [c], Except.error { processed := 0, errors := (transform c).length }) := by
  induction pre with
  | nil => simp [full_load_loop, process_data_batch, hc]
  | cons x xs ih =>
    have hx : upsert_ok (transform x) = true := hpre x (List.mem_cons_self x xs)
    have hrest := ih (fun y hy => hpre y (List.mem_cons_of_mem x hy))
    simp [full_load_loop, process_data_batch, hx, hrest]

/-- Witness for C6 amended at a concrete two-chunk load whose first
chunk fails. -/
theorem C6_witness :
    full_load_loop id (fun _ => false) [[sale_row_1], [sale_row_2]] =
      ([[sale_row_1]], Except.error { processed := 0, errors := 1 }) := by
  have h := C6_failing_chunk_aborts_loop id (fun _ => false) [] [sale_row_1] [[sale_row_2]]
    (fun x hx => absurd hx (List.not_mem_nil x)) rfl
  simpa using h

/-- C7 counterexample: process_data_batch is a step of the spec sections
4.1-4.4, its decorator declares no cache key, and two invocations with
identical resolved inputs execute the underlying work twice, refuting
at-most-one execution for every step. -/
theorem C7_counterexample_batch_step_not_cached :
    process_data_batch_policy.cached = false ∧
    (run_twice process_data_batch_policy (fun n => n + 1) 5).2 = 2 ∧
    (run_twice process_data_batch_policy (fun n => n + 1) 5).1 = (6, 6) := by
  decide

/-- C7 amended: two invocations of one step with identical resolved
inputs always return equal results, and the underlying work runs once
exactly for the steps whose decorator declares cache_key_fn equal to
task_input_hash, namely validate_source_data, create_raw_tables and
create_dimension_tables; the batch, raw-load, dimension-load and
fact-load steps declare no cache key and execute the work on every
invocation. -/
theorem C7_only_declared_steps_cached :
    (∀ (β : Type) (p : TaskPolicy) (work : Nat → β) (input : Nat),
        (run_twice p work input).1.1 = (run_twice p work input).1.2 ∧
        (p.cached = true → (run_twice p work input).2 = 1) ∧
        (p.cached = false → (run_twice p work input).2 = 2)) ∧
    validate_source_data_policy.cached = true ∧
    create_raw_tables_policy.cached = true ∧
    create_dimension_tables_policy.cached = true ∧
    process_data_batch_policy.cached = false ∧
    load_raw_data_policy.cached = false ∧
    load_dimension_table_policy.cached = false ∧
    load_fact_sales_policy.cached = false := by
  refine ⟨?_, rfl, rfl, rfl, rfl, rfl, rfl, rfl⟩
  intro β p work input
  by_cases hp : p.cached
  · simp [run_twice, run_task, hp, List.lookup]
  · simp [run_twice, run_task, hp]

/-- Witness for C7 amended: the cached validation step really executes
once over two identical invocations. -/
theorem C7_witness :
    (run_twice validate_source_data_policy (fun n => n * 2) 4).2 = 1 :=
  (C7_only_declared_steps_cached.1 Nat validate_source_data_policy (fun n => n * 2) 4).2.1 rfl

/-- C8 counterexample: with two configured tables whose first source is
unreadable, the run raises the first table failure and never completes,
so the second table is not processed and no per-table status summary
exists, refuting partial-failure isolation across tables. -/
theorem C8_counterexample_failed_table_aborts_run :
    main_flow [(cfg_products, none), (cfg_customers, some dsCustomersOk)] =
      Except.error "Validation failed for products" ∧
    flow_completed
      (main_flow [(cfg_products, none), (cfg_customers, some dsCustomersOk)]) = false :=
  ⟨rfl, rfl⟩

/-- C8 amended: whenever any configured table in the run has an
unreadable source, hence a terminal failure of that table, the whole run
raises instead of completing, so no per-table status summary is produced
and the remaining tables are not isolated from the failure. -/
theorem C8_terminal_failure_aborts_whole_run (pre : List (TableConfig × Option (List Row)))
    (cfg : TableConfig) (post : List (TableConfig × Option (List Row))) :
    flow_completed (main_flow (pre ++ (cfg, none) :: post)) = false := by
  induction pre with
  | nil => rfl
  | cons hd tl ih =>
    obtain ⟨c, src⟩ := hd
    cases src with
    | none => rfl
    | some t =>
      simp only [List.cons_append, main_flow]
      cases hm : main_flow (tl ++ (cfg, none) :: post) with
      | error e => rfl
      | ok acts =>
        rw [hm] at ih
        exact absurd ih (by simp [flow_completed])

/-- C9 counterexample: the dimension-load and fact-load steps declare no
exponential backoff at all, so their retry delay is not the base times
two to the attempt count, refuting uniform exponential backoff around
every step; only the validation step declares it. -/
theorem C9_counterexample_no_uniform_backoff :
    load_dimension_table_policy.backoff_factor = none ∧
    load_fact_sales_policy.backoff_factor = none ∧
    retry_delay load_dimension_table_policy 2 = 0 ∧
    retry_delay validate_source_data_policy 2 = 60 := by
  decide

/-- C9 amended: every retried step of the source declares a retry
ceiling of retries 3, and exponential backoff with factor 30 and delay
30 times 2 to the power attempt minus 1 is declared only on
validate_source_data; every other step, dimension and fact loads
included, declares no exponential backoff. -/
theorem C9_retry_three_backoff_only_on_validation :
    (∀ s ∈ pipeline_step_policies, (s.2).retries = 3) ∧
    validate_source_data_policy.backoff_factor = some 30 ∧
    (∀ k : Nat, retry_delay validate_source_data_policy k = 30 * 2 ^ (k - 1)) ∧
    (∀ s ∈ pipeline_step_policies, s.1 ≠ "validate_source_data" →
      (s.2).backoff_factor = none) := by
  refine ⟨by decide, rfl, fun k => rfl, by decide⟩

/-- Witness for C9 amended at the dimension-load step. -/
theorem C9_witness :
    load_dimension_table_policy.retries = 3 ∧
    load_dimension_table_policy.backoff_factor = none :=
  ⟨C9_retry_three_backoff_only_on_validation.1
      ("load_dimension_table", load_dimension_table_policy) (by decide),
   C9_retry_three_backoff_only_on_validation.2.2.2
      ("load_dimension_table", load_dimension_table_policy) (by decide) (by decide)⟩

end ETL
